import Mathlib

/-!
Verification development for the InnoLiber backend core
(research-grant-proposal management: auth, password hashing, JWT,
proposal CRUD with optimistic concurrency and word counting).

Shallow embedding conventions:
* Database rows become Lean structures with exactly the columns the
  ORM model declares; the store is a `List Proposal`.  The model
  declares no version, word_count, structured_content or
  last_auto_save_at column although the CRUD layer refers to such
  attributes, so the affected operations raise; Python exceptions
  (AttributeError from a missing attribute, TypeError from unknown
  constructor keyword arguments, the documented ValueError) are
  modelled as explicit outcome constructors, and the endpoint
  try/except mapping is embedded as written — including the update and
  duplicate endpoints catching their own 404 HTTPException with
  `except Exception` and returning the generic 500.
* Python `Optional` values become `Option`; a Pydantic partial-update
  request distinguishes omitted fields, explicit nulls, and values via
  the three-state `PatchField` type (mirroring `exclude_unset` vs
  `exclude_none`).
* Timestamps are abstract `Nat` instants threaded explicitly.
* External cryptographic collaborators (bcrypt, the HMAC signature of
  python-jose) are modelled symbolically as collision-free commitments;
  the repository code built on top of them (length normalization,
  claim handling) is embedded faithfully.  `hashlib.sha256` and
  `base64.b64encode` are implemented concretely.
-/

/- ====================================================================
   Word counting  (src/backend/app/crud/proposal.py)

   calculate_word_count performs, in order:
     re.sub(r'<[^>]+>', '', content)
     re.sub(r'\s+', ' ', clean_text).strip()
     len(clean_text)
   The helpers below implement exactly the leftmost, non-overlapping
   semantics of re.sub for these two patterns.
==================================================================== -/

/-- Python regex class `\s` for `str` patterns: Unicode whitespace. -/
def isPySpace (c : Char) : Bool :=
  c.toNat ∈ [9, 10, 11, 12, 13, 28, 29, 30, 31, 32, 133, 160,
             5760, 8192, 8193, 8194, 8195, 8196, 8197, 8198, 8199, 8200,
             8201, 8202, 8232, 8233, 8239, 8287, 12288]

/-- One pass of `re.sub(r'<[^>]+>', '', s)`.  The second argument is
`none` when the scanner is outside any candidate match, and `some buf`
when a `<` has been read and `buf` holds (reversed) the non-`>`
characters consumed since then.  The regex matches from a `<` to the
first following `>` provided at least one character lies between; a
`<` immediately followed by `>`, or never followed by `>`, matches
nothing and is emitted literally, after which scanning resumes. -/
def stripTagsAux : List Char → Option (List Char) → List Char
  | [], none => []
  | [], some buf => '<' :: buf.reverse
  | c :: rest, none =>
      if c = '<' then stripTagsAux rest (some [])
      else c :: stripTagsAux rest none
  | c :: rest, some buf =>
      if c = '>' then
        if buf.isEmpty then '<' :: '>' :: stripTagsAux rest none
        else stripTagsAux rest none
      else stripTagsAux rest (some (c :: buf))

def stripTags (cs : List Char) : List Char :=
  stripTagsAux cs none

/-- One pass of `re.sub(r'\s+', ' ', s)`: each maximal run of
whitespace becomes a single space.  The Boolean records whether the
previous character belonged to a run already emitted as one space. -/
def collapseWsAux : List Char → Bool → List Char
  | [], _ => []
  | c :: rest, inRun =>
      if isPySpace c then
        if inRun then collapseWsAux rest true
        else ' ' :: collapseWsAux rest true
      else c :: collapseWsAux rest false

def collapseWs (cs : List Char) : List Char :=
  collapseWsAux cs false

/-- Python `str.strip()`: drop whitespace from both ends. -/
def pyStrip (cs : List Char) : List Char :=
  ((cs.dropWhile isPySpace).reverse.dropWhile isPySpace).reverse

/-- `calculate_word_count` (crud/proposal.py): strip markup tags,
collapse whitespace runs, trim, and return the character count. -/
def calculate_word_count (content : String) : Nat :=
  (pyStrip (collapseWs (stripTags content.data))).length

/-- A value of one section of a structured-content dictionary: a text
section or a non-text JSON value (sections absent from the dictionary
simply do not appear in the association list). -/
inductive SectionVal where
  | str (s : String)
  | nonstr
  deriving DecidableEq

/-- `calculate_structured_word_count` (crud/proposal.py): iterate over
the dictionary values, adding the word count of each string value. -/
def calculate_structured_word_count (structured_content : List (String × SectionVal)) : Nat :=
  structured_content.foldl
    (fun total_count kv =>
      match kv.2 with
      | .str s => total_count + calculate_word_count s
      | .nonstr => total_count) 0

/-- Word count of one dictionary entry, as added by the loop of
`calculate_structured_word_count`. -/
def sectionWordCount (kv : String × SectionVal) : Nat :=
  match kv.2 with
  | .str s => calculate_word_count s
  | .nonstr => 0

/- ====================================================================
   Credential engine  (src/backend/app/core/security.py)

   hashlib.sha256 and base64.b64encode are implemented concretely
   (FIPS 180-4 / RFC 4648); bcrypt is an external collaborator and is
   modelled as an ideal salted commitment that truncates its input to
   72 bytes, which is exactly the contract the repository code works
   around.  Passwords are represented by their UTF-8 byte sequences.
==================================================================== -/

/-- Truncation of a natural number to 32 bits. -/
def w32 (n : Nat) : Nat := n % 4294967296

/-- Rotate a 32-bit word right by n bits. -/
def rotr32 (n x : Nat) : Nat := w32 ((x >>> n) ||| (x <<< (32 - n)))

def bigS0 (x : Nat) : Nat := rotr32 2 x ^^^ rotr32 13 x ^^^ rotr32 22 x

def bigS1 (x : Nat) : Nat := rotr32 6 x ^^^ rotr32 11 x ^^^ rotr32 25 x

def smallS0 (x : Nat) : Nat := rotr32 7 x ^^^ rotr32 18 x ^^^ (x >>> 3)

def smallS1 (x : Nat) : Nat := rotr32 17 x ^^^ rotr32 19 x ^^^ (x >>> 10)

def chFn (x y z : Nat) : Nat := (x &&& y) ^^^ ((x ^^^ 4294967295) &&& z)

def majFn (x y z : Nat) : Nat := (x &&& y) ^^^ (x &&& z) ^^^ (y &&& z)

/-- Round constants of SHA-256 (FIPS 180-4), written in decimal. -/
def sha256K : List Nat :=
  [1116352408, 1899447441, 3049323471, 3921009573, 961987163, 1508970993,
   2453635748, 2870763221, 3624381080, 310598401, 607225278, 1426881987,
   1925078388, 2162078206, 2614888103, 3248222580, 3835390401, 4022224774,
   264347078, 604807628, 770255983, 1249150122, 1555081692, 1996064986,
   2554220882, 2821834349, 2952996808, 3210313671, 3336571891, 3584528711,
   113926993, 338241895, 666307205, 773529912, 1294757372, 1396182291,
   1695183700, 1986661051, 2177026350, 2456956037, 2730485921, 2820302411,
   3259730800, 3345764771, 3516065817, 3600352804, 4094571909, 275423344,
   430227734, 506948616, 659060556, 883997877, 958139571, 1322822218,
   1537002063, 1747873779, 1955562222, 2024104815, 2227730452, 2361852424,
   2428436474, 2756734187, 3204031479, 3329325298]

/-- Working state of the SHA-256 compression function. -/
structure Hash8 where
  a : Nat
  b : Nat
  c : Nat
  d : Nat
  e : Nat
  f : Nat
  g : Nat
  hh : Nat
  deriving DecidableEq

/-- Initial hash value of SHA-256, written in decimal. -/
def sha256H0 : Hash8 :=
  { a := 1779033703, b := 3144134277, c := 1013904242, d := 2773480762,
    e := 1359893119, f := 2600822924, g := 528734635, hh := 1541459225 }

/-- Big-endian byte expansion: `toBytesBE k v` is the k-byte big-endian
representation of v. -/
def toBytesBE : Nat → Nat → List Nat
  | 0, _ => []
  | k + 1, val => toBytesBE k (val / 256) ++ [val % 256]

/-- SHA-256 message padding: append 0x80, zero bytes up to 56 mod 64,
then the 64-bit big-endian bit length. -/
def sha256Pad (msg : List Nat) : List Nat :=
  let len := msg.length
  let padZeros := (119 - (len % 64)) % 64
  msg ++ [128] ++ List.replicate padZeros 0 ++ toBytesBE 8 (8 * len)

def wordOfBytes (bs : List Nat) : Nat :=
  bs.foldl (fun acc b => acc * 256 + b) 0

def nextW (w : List Nat) : Nat :=
  let t := w.length
  w32 (smallS1 (w.getD (t - 2) 0) + w.getD (t - 7) 0 + smallS0 (w.getD (t - 15) 0) + w.getD (t - 16) 0)

/-- Message schedule of one 64-byte block: 16 words read big-endian,
extended to 64 words. -/
def msgSchedule (block : List Nat) : List Nat :=
  let w16 := (List.range 16).map (fun i => wordOfBytes ((block.drop (4 * i)).take 4))
  (List.range 48).foldl (fun w _ => w ++ [nextW w]) w16

/-- Compression function of SHA-256 applied to one 64-byte block. -/
def sha256Compress (hs : Hash8) (block : List Nat) : Hash8 :=
  let ws := msgSchedule block
  let r := (List.range 64).foldl
    (fun st t =>
      let t1 := w32 (st.hh + bigS1 st.e + chFn st.e st.f st.g + sha256K.getD t 0 + ws.getD t 0)
      let t2 := w32 (bigS0 st.a + majFn st.a st.b st.c)
      { a := w32 (t1 + t2), b := st.a, c := st.b, d := st.c,
        e := w32 (st.d + t1), f := st.e, g := st.f, hh := st.g }) hs
  { a := w32 (hs.a + r.a), b := w32 (hs.b + r.b), c := w32 (hs.c + r.c), d := w32 (hs.d + r.d),
    e := w32 (hs.e + r.e), f := w32 (hs.f + r.f), g := w32 (hs.g + r.g), hh := w32 (hs.hh + r.hh) }

/-- Modelled library function `hashlib.sha256(...).digest()`: the
32-byte SHA-256 digest of a byte sequence. -/
def sha256 (msg : List Nat) : List Nat :=
  let padded := sha256Pad msg
  let nBlocks := padded.length / 64
  let h := (List.range nBlocks).foldl
    (fun hs i => sha256Compress hs ((padded.drop (64 * i)).take 64)) sha256H0
  toBytesBE 4 h.a ++ toBytesBE 4 h.b ++ toBytesBE 4 h.c ++ toBytesBE 4 h.d ++
  toBytesBE 4 h.e ++ toBytesBE 4 h.f ++ toBytesBE 4 h.g ++ toBytesBE 4 h.hh

/-- Character (byte) of the standard base64 alphabet at index i. -/
def b64char (i : Nat) : Nat :=
  if i < 26 then 65 + i
  else if i < 52 then 97 + (i - 26)
  else if i < 62 then 48 + (i - 52)
  else if i = 62 then 43 else 47

/-- Index of an alphabet byte; inverse of b64char on the alphabet. -/
def b64charInv (c : Nat) : Nat :=
  if 65 ≤ c ∧ c ≤ 90 then c - 65
  else if 97 ≤ c ∧ c ≤ 122 then 26 + (c - 97)
  else if 48 ≤ c ∧ c ≤ 57 then 52 + (c - 48)
  else if c = 43 then 62 else 63

/-- Modelled library function `base64.b64encode`: standard base64 with
padding, producing a byte sequence (61 is the pad byte). -/
def b64encode : List Nat → List Nat
  | b1 :: b2 :: b3 :: rest =>
      b64char (b1 / 4) :: b64char ((b1 % 4) * 16 + b2 / 16) ::
      b64char ((b2 % 16) * 4 + b3 / 64) :: b64char (b3 % 64) :: b64encode rest
  | [b1, b2] =>
      [b64char (b1 / 4), b64char ((b1 % 4) * 16 + b2 / 16), b64char ((b2 % 16) * 4), 61]
  | [b1] =>
      [b64char (b1 / 4), b64char ((b1 % 4) * 16), 61, 61]
  | [] => []

/-- Left inverse of b64encode on byte sequences (used to prove
injectivity of the digest re-encoding). -/
def b64decode : List Nat → List Nat
  | c1 :: c2 :: c3 :: c4 :: rest =>
      if c3 = 61 then [b64charInv c1 * 4 + b64charInv c2 / 16]
      else if c4 = 61 then
        [b64charInv c1 * 4 + b64charInv c2 / 16,
         (b64charInv c2 % 16) * 16 + b64charInv c3 / 4]
      else
        (b64charInv c1 * 4 + b64charInv c2 / 16) ::
        ((b64charInv c2 % 16) * 16 + b64charInv c3 / 4) ::
        ((b64charInv c3 % 4) * 64 + b64charInv c4) :: b64decode rest
  | _ => []

/-- Salt produced by `bcrypt.gensalt` (opaque nonce; the work factor is
carried separately). -/
structure BcryptSalt where
  nonce : Nat
  deriving DecidableEq

/-- Stored bcrypt hash string, modelled symbolically: an ideal salted
commitment to the first 72 bytes of the input.  This idealizes the
external bcrypt library as collision-free while keeping its documented
72-byte input ceiling, the behaviour the repository code responds to. -/
structure BcryptHash where
  salt : BcryptSalt
  rounds : Nat
  keyBytes : List Nat
  deriving DecidableEq

/-- Modelled library function `bcrypt.hashpw`: commits to the input
truncated at 72 bytes. -/
def bcrypt_hashpw (password_bytes : List Nat) (salt : BcryptSalt) (rounds : Nat) : BcryptHash :=
  { salt := salt, rounds := rounds, keyBytes := password_bytes.take 72 }

/-- Modelled library function `bcrypt.checkpw`: recomputes the
commitment over the (truncated) candidate and compares. -/
def bcrypt_checkpw (password_bytes : List Nat) (hashed : BcryptHash) : Bool :=
  decide (password_bytes.take 72 = hashed.keyBytes)

/-- `get_password_hash` (core/security.py): UTF-8 encode; if longer
than 72 bytes, replace by base64(sha256(bytes)); bcrypt with
rounds 12.  The argument is the UTF-8 byte sequence of the password. -/
def get_password_hash (password : List Nat) (salt : BcryptSalt) : BcryptHash :=
  let password_bytes := if password.length > 72 then b64encode (sha256 password) else password
  bcrypt_hashpw password_bytes salt 12

/-- `verify_password` (core/security.py): identical normalization, then
`bcrypt.checkpw` against the stored hash. -/
def verify_password (plain_password : List Nat) (hashed_password : BcryptHash) : Bool :=
  let password_bytes :=
    if plain_password.length > 72 then b64encode (sha256 plain_password) else plain_password
  bcrypt_checkpw password_bytes hashed_password

/- ====================================================================
   Token engine  (src/backend/app/core/security.py, core/config.py)

   python-jose with HS256 is an external collaborator; its HMAC
   signature is modelled symbolically (Dolev-Yao): a signature value is
   the pair of the signing key and the signed payload, so a signature
   verifies exactly when it was produced with the same key over the
   same payload.  The claims dictionary carries the sub/exp/iat claims
   the repository writes.
==================================================================== -/

def JWT_SECRET_KEY : String := "your_jwt_secret_key_here_please_change_in_production"

def JWT_ACCESS_TOKEN_EXPIRE : Nat := 86400

/-- Claims carried by a token of this application. -/
structure TokenPayload where
  sub : Option String
  exp : Nat
  iat : Nat
  deriving DecidableEq

/-- Symbolic HMAC-SHA256 signature over a payload. -/
structure JoseSig where
  key : String
  signedPayload : TokenPayload
  deriving DecidableEq

/-- A structurally well-formed JWT: payload plus signature segment. -/
structure SignedJwt where
  payload : TokenPayload
  sig : JoseSig
  deriving DecidableEq

/-- A presented token string: either parseable as a JWT or malformed. -/
inductive JoseToken where
  | signed (j : SignedJwt)
  | malformed (raw : String)
  deriving DecidableEq

/-- Outcome of `jose.jwt.decode`: the payload, or a JWTError raised for
malformed input, a signature mismatch, or an elapsed expiry. -/
inductive JoseOutcome where
  | ok (p : TokenPayload)
  | jwtError
  deriving DecidableEq

/-- Modelled library function `jose.jwt.encode` with HS256. -/
def joseEncode (payload : TokenPayload) (key : String) : JoseToken :=
  .signed { payload := payload, sig := { key := key, signedPayload := payload } }

/-- Modelled library function `jose.jwt.decode`: verifies the signature
with the given key and rejects tokens whose exp claim lies strictly in
the past. -/
def joseDecode (t : JoseToken) (key : String) (now : Nat) : JoseOutcome :=
  match t with
  | .malformed _ => .jwtError
  | .signed j =>
      if j.sig = { key := key, signedPayload := j.payload } then
        if j.payload.exp < now then .jwtError else .ok j.payload
      else .jwtError

/-- Data dictionary passed to `create_access_token`; the application
always passes a sub claim holding the user email. -/
structure TokenData where
  sub : Option String
  deriving DecidableEq

/-- `create_access_token` (core/security.py): expiry is now plus the
given delta, defaulting to JWT_ACCESS_TOKEN_EXPIRE seconds; adds exp
and iat claims and signs with the configured secret. -/
def create_access_token (data : TokenData) (expires_delta : Option Nat) (now : Nat) : JoseToken :=
  let expire :=
    match expires_delta with
    | some dt => now + dt
    | none => now + JWT_ACCESS_TOKEN_EXPIRE
  joseEncode { sub := data.sub, exp := expire, iat := now } JWT_SECRET_KEY

/-- `verify_token` (core/security.py): decode inside try/except; any
JWTError and a missing sub claim both yield none. -/
def verify_token (token : JoseToken) (now : Nat) : Option String :=
  match joseDecode token JWT_SECRET_KEY now with
  | .jwtError => none
  | .ok payload =>
      match payload.sub with
      | none => none
      | some email => some email

/- ====================================================================
   Data model  (src/backend/app/models/user.py, models/proposal.py,
   schemas/proposal.py)

   The Proposal record carries the columns of the ORM model together
   with the version / word_count / structured_content /
   last_auto_save_at attributes that the CRUD layer and the response
   schemas read and write (spec section 3 lists them as part of the
   Proposal row).  Database-managed created_at/updated_at timestamps
   are outside the program logic and omitted.  Quality scores are
   numerals (the claims never do float arithmetic on them), opaque
   JSON blobs (ai_suggestions, ai_analysis, files) are opaque strings.
==================================================================== -/

/-- Enumerated proposal status (schemas/proposal.py ProposalStatus). -/
inductive ProposalStatus where
  | draft
  | reviewing
  | completed
  | submitted
  deriving DecidableEq

/-- String value stored in the status column for an enum member. -/
def ProposalStatus.val : ProposalStatus → String
  | .draft => "draft"
  | .reviewing => "reviewing"
  | .completed => "completed"
  | .submitted => "submitted"

/-- Structured content (schemas/proposal.py ProposalContent): seven
named rich-text sections, each defaulting to the empty string. -/
structure ProposalContent where
  abstract : String := ""
  background : String := ""
  objectives : String := ""
  methodology : String := ""
  timeline : String := ""
  budget : String := ""
  references : String := ""
  deriving DecidableEq

/-- Result of `ProposalContent.dict()`: every section appears, as a
string value. -/
def proposalContentDict (sc : ProposalContent) : List (String × SectionVal) :=
  [("abstract", .str sc.abstract), ("background", .str sc.background),
   ("objectives", .str sc.objectives), ("methodology", .str sc.methodology),
   ("timeline", .str sc.timeline), ("budget", .str sc.budget),
   ("references", .str sc.references)]

/-- A persisted Proposal row.  The fields are exactly the columns
declared by models/proposal.py: the model declares NO version,
word_count, structured_content or last_auto_save_at column, even
though the CRUD layer and the response schemas refer to attributes of
those names — that mismatch is what several claims turn on.  The
database-managed created_at/updated_at timestamps are outside the
program logic and omitted. -/
structure Proposal where
  id : Nat
  title : String
  description : Option String
  content : Option String
  status : String
  owner_id : Nat
  funding_agency : Option String
  funding_amount : Option Int
  project_duration : Option Int
  research_field : Option String
  keywords : List String
  quality_score : Option Rat
  content_score : Option Rat
  format_score : Option Rat
  innovation_score : Option Rat
  ai_suggestions : Option String
  ai_analysis : Option String
  files : Option String
  submitted_at : Option Nat
  deriving DecidableEq

/-- A persisted User row (the attributes the gated operations read). -/
structure User where
  id : Nat
  email : String
  is_active : Bool
  deriving DecidableEq

/-- State of one field of a Pydantic partial-update request: omitted
from the request body, explicitly null, or set to a value.  `dict`
with exclude_unset and exclude_none keeps only the set fields; plain
attribute access returns None for both omitted and null fields. -/
inductive PatchField (α : Type) where
  | unset
  | null
  | set (v : α)
  deriving DecidableEq

/-- Truth of `field is not None` / the field's truthiness for a
Pydantic attribute modelled by a PatchField. -/
def PatchField.isSet {α : Type} : PatchField α → Bool
  | .set _ => true
  | _ => false

/-- `ProposalUpdateRequest` (schemas/proposal.py): all fields optional.
The request schema does carry word_count, version and
structured_content fields, although the row model has no matching
columns. -/
structure ProposalUpdateRequest where
  title : PatchField String := .unset
  description : PatchField String := .unset
  content : PatchField String := .unset
  structured_content : PatchField ProposalContent := .unset
  word_count : PatchField Nat := .unset
  version : PatchField Nat := .unset
  status : PatchField ProposalStatus := .unset
  quality_score : PatchField Rat := .unset
  content_score : PatchField Rat := .unset
  format_score : PatchField Rat := .unset
  innovation_score : PatchField Rat := .unset
  research_field : PatchField String := .unset
  funding_amount : PatchField Int := .unset
  project_duration : PatchField Int := .unset
  keywords : PatchField (List String) := .unset
  deriving DecidableEq

/- ====================================================================
   CRUD layer  (src/backend/app/crud/proposal.py)

   Python exceptions are modelled as explicit outcome constructors.
   Because the row model lacks the version/word_count/
   structured_content columns, the create, update and duplicate
   operations raise (TypeError from the declarative constructor for
   unknown keyword arguments, AttributeError from reading a missing
   attribute) before ever reaching db.add/db.commit, so they never
   modify the store.
==================================================================== -/

/-- `get_proposal_by_id`: select by id, additionally filtered by owner
when a user id is given; None when no row matches.  Touches only the
id and owner_id columns, which exist, so it never raises. -/
def get_proposal_by_id (store : List Proposal) (proposal_id : Nat) (user_id : Option Nat) :
    Option Proposal :=
  store.find? (fun p =>
    p.id == proposal_id &&
    (match user_id with
     | none => true
     | some uid => p.owner_id == uid))

/-- `ProposalCreateRequest` (schemas/proposal.py). -/
structure ProposalCreateRequest where
  title : String
  research_field : String
  description : Option String := none
  funding_agency : Option String := some "国家自然科学基金委"
  funding_amount : Option Int := none
  project_duration : Option Int := none
  keywords : Option (List String) := some []
  deriving DecidableEq

/-- Outcome of `create_proposal`: the ValueError raised when the
target user id does not exist, or the TypeError raised by the
declarative constructor when it is handed the version and word_count
keyword arguments, which are not columns of the model.  No branch
reaches db.add, so no row is ever inserted. -/
inductive CreateOutcome where
  | userNotFoundError
  | typeError
  deriving DecidableEq

/-- `create_proposal`: defensive user-existence check (ValueError when
it fails); then `Proposal(..., version=1, word_count=0)` raises
TypeError, because the SQLAlchemy declarative constructor rejects
keyword arguments that are not mapped attributes and the model maps
neither version nor word_count.  The insert is never reached and the
store is returned unchanged. -/
def create_proposal (store : List Proposal) (users : List User)
    (proposal_data : ProposalCreateRequest) (user_id : Nat) :
    CreateOutcome × List Proposal :=
  match users.find? (fun u => u.id == user_id) with
  | none => (.userNotFoundError, store)
  | some _ => (.typeError, store)

/-- Setattr loop of `update_proposal` over the fields kept by
`dict(exclude_unset=True, exclude_none=True)` — exactly the fields in
state set.  The `if hasattr(proposal, field)` guard at
crud/proposal.py:272 silently drops structured_content, word_count and
version, which are not attributes of the model.  These writes are
in-memory only: update_proposal raises before db.commit, so they are
never persisted (see update_proposal below). -/
def applyPatch (p : Proposal) (d : ProposalUpdateRequest) : Proposal :=
  { p with
    title := match d.title with | .set v => v | _ => p.title
    description := match d.description with | .set v => some v | _ => p.description
    content := match d.content with | .set v => some v | _ => p.content
    status := match d.status with | .set v => v.val | _ => p.status
    quality_score := match d.quality_score with | .set v => some v | _ => p.quality_score
    content_score := match d.content_score with | .set v => some v | _ => p.content_score
    format_score := match d.format_score with | .set v => some v | _ => p.format_score
    innovation_score :=
      match d.innovation_score with | .set v => some v | _ => p.innovation_score
    research_field := match d.research_field with | .set v => some v | _ => p.research_field
    funding_amount := match d.funding_amount with | .set v => some v | _ => p.funding_amount
    project_duration :=
      match d.project_duration with | .set v => some v | _ => p.project_duration
    keywords := match d.keywords with | .set v => v | _ => p.keywords }

/-- Outcome of `update_proposal`.  versionConflict is the ValueError
the function documents for a stale optimistic-lock version, carrying
both version numbers; with the model as declared it is dead code,
because the comparison reads the missing version attribute first and
raises the attributeError outcome instead. -/
inductive UpdateOutcome where
  | notFound
  | versionConflict (current submitted : Nat)
  | attributeError
  deriving DecidableEq

/-- `update_proposal`: fetch by (id, owner), None when absent.  On a
found row: when the patch carries a version, the optimistic-lock check
`proposal_data.version != proposal.version` (crud/proposal.py:263)
reads the missing version attribute of the row and raises
AttributeError — the documented version-conflict ValueError one line
below is never reached; when it does not, the setattr loop (applyPatch
above) runs in memory and the unconditional bump
`proposal.version = proposal.version + 1` at :276 raises the same
AttributeError.  db.commit is never reached, so on every path the
store is returned unchanged and no update is performed. -/
def update_proposal (store : List Proposal) (proposal_id : Nat)
    (proposal_data : ProposalUpdateRequest) (user_id : Nat) (now : Nat) :
    UpdateOutcome × List Proposal :=
  match get_proposal_by_id store proposal_id (some user_id) with
  | none => (.notFound, store)
  | some _ =>
      match proposal_data.version with
      | .set _ => (.attributeError, store)
      | _ => (.attributeError, store)

/-- `delete_proposal`: fetch by (id, owner); False when absent, else
remove the row and return True.  Deletion touches no missing
attribute, so this operation genuinely works. -/
def delete_proposal (store : List Proposal) (proposal_id : Nat) (user_id : Nat) :
    Bool × List Proposal :=
  match get_proposal_by_id store proposal_id (some user_id) with
  | none => (false, store)
  | some _ => (true, store.filter (fun q => q.id != proposal_id))

/-- Outcome of `duplicate_proposal`: None for a missing or foreign
source row, or the AttributeError raised while building the copy. -/
inductive DupOutcome where
  | notFound
  | attributeError
  deriving DecidableEq

/-- `duplicate_proposal`: fetch the source by (id, owner), None when
absent.  On a found row the default-title rule runs first (Python
truthiness: None and the empty string both fall back to the copy
suffix); then the constructor call evaluates its keyword arguments and
`original.structured_content` (crud/proposal.py:396) reads an
attribute the model does not declare, raising AttributeError — had it
got further, the version/word_count/structured_content keyword
arguments would raise TypeError.  db.add is never reached: nothing is
ever inserted and the store is returned unchanged. -/
def duplicate_proposal (store : List Proposal) (proposal_id : Nat) (user_id : Nat)
    (new_title : Option String) : DupOutcome × List Proposal :=
  match get_proposal_by_id store proposal_id (some user_id) with
  | none => (.notFound, store)
  | some original =>
      let _title :=
        match new_title with
        | some s => if s = "" then original.title ++ " (副本)" else s
        | none => original.title ++ " (副本)"
      (.attributeError, store)

/- ====================================================================
   Access-control gate and endpoints
   (src/backend/app/core/dependencies.py, api/v1/proposals.py)
==================================================================== -/

/-- HTTPException outcomes raised by the gate and the proposal
endpoints.  internal is the generic 500 produced by the
`except Exception` handlers; badRequest is the 400 produced by the
create endpoint for a ValueError. -/
inductive ApiError where
  | unauthorized
  | inactiveUser
  | badRequest
  | notFound
  | conflict (current submitted : Nat)
  | internal
  deriving DecidableEq

/-- HTTP status code of each error outcome. -/
def ApiError.statusCode : ApiError → Nat
  | .unauthorized => 401
  | .inactiveUser => 400
  | .badRequest => 400
  | .notFound => 404
  | .conflict _ _ => 409
  | .internal => 500

/-- `get_current_user` (core/dependencies.py): verify the bearer token
and look the subject email up; both an invalid token and an unknown
email raise 401. -/
def get_current_user (users : List User) (token : JoseToken) (now : Nat) :
    Except ApiError User :=
  match verify_token token now with
  | none => .error .unauthorized
  | some email =>
      match users.find? (fun u => u.email == email) with
      | none => .error .unauthorized
      | some user => .ok user

/-- `get_current_active_user` (core/dependencies.py): additionally
raise 400 when the account is inactive.  The proposals router does not
use this dependency; it is embedded to state what the spec expects. -/
def get_current_active_user (users : List User) (token : JoseToken) (now : Nat) :
    Except ApiError User :=
  match get_current_user users token now with
  | .error e => .error e
  | .ok current_user =>
      if current_user.is_active then .ok current_user else .error .inactiveUser

/-- GET /proposals/{id} (api/v1/proposals.py get_proposal): gated by
get_current_user; a missing row is a 404 raised outside any
try/except, so it reaches the client as a 404. -/
def api_get_proposal (users : List User) (store : List Proposal) (token : JoseToken)
    (now : Nat) (proposal_id : Nat) : Except ApiError Proposal :=
  match get_current_user users token now with
  | .error e => .error e
  | .ok current_user =>
      match get_proposal_by_id store proposal_id (some current_user.id) with
      | none => .error .notFound
      | some p => .ok p

/-- POST /proposals (api/v1/proposals.py create_proposal): gated by
get_current_user; `except ValueError` maps the missing-user check to
400, `except Exception` maps the constructor TypeError to the generic
500.  The success branch of the endpoint is unreachable. -/
def api_create_proposal (users : List User) (store : List Proposal) (token : JoseToken)
    (now : Nat) (proposal_data : ProposalCreateRequest) :
    Except ApiError Proposal × List Proposal :=
  match get_current_user users token now with
  | .error e => (.error e, store)
  | .ok current_user =>
      match create_proposal store users proposal_data current_user.id with
      | (.userNotFoundError, s) => (.error .badRequest, s)
      | (.typeError, s) => (.error .internal, s)

/-- Word-count preprocessing of PUT /proposals/{id}: when the patch
carries structured content and no explicit word count, the endpoint
assigns the computed count to the request object before delegating.
This runs on the Pydantic request, whose fields all exist, so it never
raises — the computed value is then lost in the CRUD layer. -/
def applyWordCountDefault (proposal_data : ProposalUpdateRequest) : ProposalUpdateRequest :=
  if proposal_data.structured_content.isSet then
    match proposal_data.structured_content with
    | .set sc =>
        (match proposal_data.word_count with
         | .set _ => proposal_data
         | _ =>
            { proposal_data with
              word_count := .set (calculate_structured_word_count (proposalContentDict sc)) })
    | _ => proposal_data
  else proposal_data

/-- Body a successful PUT /proposals/{id} would return (version and
wordCount); unreachable with the model as declared, kept to mirror the
success branch of the endpoint. -/
structure ProposalUpdateResponse where
  version : Nat
  word_count : Nat
  deriving DecidableEq

/-- PUT /proposals/{id} (api/v1/proposals.py update_proposal): word
count preprocessing, then the CRUD update inside try/except.  The 404
HTTPException for a missing row is raised inside the try block
(lines 234-238) and caught by the `except Exception` handler at :254,
which converts it — like the AttributeError — into the generic 500.
The `except ValueError` branch mapping a version conflict to 409 is
kept although the CRUD layer can never produce that outcome. -/
def api_update_proposal (users : List User) (store : List Proposal) (token : JoseToken)
    (now : Nat) (proposal_id : Nat) (proposal_data : ProposalUpdateRequest) :
    Except ApiError ProposalUpdateResponse × List Proposal :=
  match get_current_user users token now with
  | .error e => (.error e, store)
  | .ok current_user =>
      let d := applyWordCountDefault proposal_data
      match update_proposal store proposal_id d current_user.id now with
      | (.notFound, s) => (.error .internal, s)
      | (.versionConflict cur sub, s) => (.error (.conflict cur sub), s)
      | (.attributeError, s) => (.error .internal, s)

/-- DELETE /proposals/{id} (api/v1/proposals.py delete_proposal): no
try/except here — False from the CRUD layer is a 404 that reaches the
client, success is 204 No Content. -/
def api_delete_proposal (users : List User) (store : List Proposal) (token : JoseToken)
    (now : Nat) (proposal_id : Nat) : Except ApiError Unit × List Proposal :=
  match get_current_user users token now with
  | .error e => (.error e, store)
  | .ok current_user =>
      match delete_proposal store proposal_id current_user.id with
      | (false, s) => (.error .notFound, s)
      | (true, s) => (.ok (), s)

/-- POST /proposals/{id}/duplicate (api/v1/proposals.py
duplicate_proposal): the 404 HTTPException for a missing source is
raised inside the try block (lines 315-319) and caught by
`except Exception` at :328, so both it and the AttributeError surface
as the generic 500. -/
def api_duplicate_proposal (users : List User) (store : List Proposal) (token : JoseToken)
    (now : Nat) (proposal_id : Nat) (new_title : Option String) :
    Except ApiError Proposal × List Proposal :=
  match get_current_user users token now with
  | .error e => (.error e, store)
  | .ok current_user =>
      match duplicate_proposal store proposal_id current_user.id new_title with
      | (.notFound, s) => (.error .internal, s)
      | (.attributeError, s) => (.error .internal, s)

/- ====================================================================
   Concrete instances used by witnesses and counterexamples
==================================================================== -/

/-- A stored proposal row owned by user 1. -/
def baseProposal : Proposal :=
  { id := 7
    title := "Alpha"
    description := some "B"
    content := none
    status := "draft"
    owner_id := 1
    funding_agency := none
    funding_amount := none
    project_duration := none
    research_field := some "AI"
    keywords := ["k1"]
    quality_score := some 0
    content_score := some 0
    format_score := some 0
    innovation_score := some 0
    ai_suggestions := none
    ai_analysis := none
    files := none
    submitted_at := none }

/-- A submitted proposal of user 2 with non-default analysis fields
(source row for the duplicate claims). -/
def richProposal : Proposal :=
  { baseProposal with
    id := 9
    owner_id := 2
    status := "submitted"
    content := some "body"
    quality_score := some 8
    content_score := some 7
    format_score := some 6
    innovation_score := some 5
    ai_suggestions := some "sug"
    ai_analysis := some "ana"
    files := some "f.pdf"
    submitted_at := some 99 }

/-- An account whose active flag is false. -/
def demoInactiveUser : User := { id := 1, email := "user@example.com", is_active := false }

/-- An active account owning baseProposal. -/
def demoAlice : User := { id := 1, email := "alice@example.com", is_active := true }

/-- An active account owning richProposal. -/
def demoBob : User := { id := 2, email := "bob@example.com", is_active := true }

/-- A token issued at instant 0 for the inactive account. -/
def demoTokenInactive : JoseToken :=
  create_access_token { sub := some "user@example.com" } none 0

/-- A token issued at instant 0 for Alice. -/
def demoTokenAlice : JoseToken :=
  create_access_token { sub := some "alice@example.com" } none 0

/-- A token issued at instant 0 for Bob. -/
def demoTokenBob : JoseToken :=
  create_access_token { sub := some "bob@example.com" } none 0

/-- A structurally well-formed JWT whose signature was not produced
with the configured secret key. -/
def badSigJwt : SignedJwt :=
  { payload := { sub := some "user@example.com", exp := 1000, iat := 0 }
    sig := { key := "some_other_key"
             signedPayload := { sub := some "user@example.com", exp := 1000, iat := 0 } } }

/-- A correctly signed JWT whose expiry claim is 5. -/
def expiredJwt : SignedJwt :=
  { payload := { sub := some "user@example.com", exp := 5, iat := 0 }
    sig := { key := JWT_SECRET_KEY
             signedPayload := { sub := some "user@example.com", exp := 5, iat := 0 } } }

/-- An update patch submitting stale version 2. -/
def patchConflict : ProposalUpdateRequest := { version := .set 2 }

/-- An update patch setting only the title. -/
def patchTitleOnly : ProposalUpdateRequest := { title := .set "T2" }

/-- Structured content whose only non-empty section counts 11. -/
def scHello : ProposalContent := { abstract := "<p>Hello  world</p>" }

/-- An update patch carrying structured content and no word count. -/
def patchStructured : ProposalUpdateRequest := { structured_content := .set scHello }

/-- An update patch carrying structured content and an explicit word
count. -/
def patchStructuredExplicit : ProposalUpdateRequest :=
  { structured_content := .set scHello, word_count := .set 999 }

/-- A password byte sequence of 73 bytes (exceeds the bcrypt input
ceiling, so the code pre-digests it). -/
def longPw : List Nat := List.replicate 73 97

/-- The 44-byte password spelling the base64 re-encoding of the digest
of longPw. -/
def collidingPw : List Nat := b64encode (sha256 longPw)

/- ====================================================================
   Helper lemmas and sanity checks
==================================================================== -/

/-- Accumulator generalization of the word-count loop. -/
theorem structured_word_count_foldl (d : List (String × SectionVal)) :
    ∀ acc : Nat,
      d.foldl
        (fun total_count kv =>
          match kv.2 with
          | .str s => total_count + calculate_word_count s
          | .nonstr => total_count) acc
      = acc + (d.map sectionWordCount).sum := by
  induction d with
  | nil => intro acc; simp
  | cons kv tl ih =>
      intro acc
      rcases kv with ⟨k, v⟩
      cases v with
      | str s => simp [List.foldl_cons, ih, sectionWordCount, Nat.add_assoc]
      | nonstr => simp [List.foldl_cons, ih, sectionWordCount]

set_option maxRecDepth 10000 in
/-- Sanity: the FIPS 180-4 test vector for the message "abc". -/
theorem sha256_abc_vector :
    sha256 [97, 98, 99] =
      [186, 120, 22, 191, 143, 1, 207, 234, 65, 65, 64, 222, 93, 174, 34, 35, 176, 3, 97, 163,
       150, 23, 122, 156, 180, 16, 255, 97, 242, 0, 21, 173] := by decide

/-- Sanity: concrete behaviour of the regex pipeline. -/
theorem calculate_word_count_examples :
    calculate_word_count "<p>Hello  world</p>" = 11
    ∧ calculate_word_count "" = 0
    ∧ calculate_word_count "  a <b> c " = 3
    ∧ calculate_word_count "<>x<a<b>y" = 4 := by decide

/-- Sanity: the hasattr guard drops the patch fields without a model
column — a structured-content or word-count patch changes nothing even
in memory — while a title patch is written (and then discarded when
the update raises). -/
theorem applyPatch_hasattr_guard :
    applyPatch baseProposal patchStructured = baseProposal
    ∧ applyPatch baseProposal patchStructuredExplicit = baseProposal
    ∧ (applyPatch baseProposal patchTitleOnly).title = "T2" := by decide

/-- Helper: the owner-filtered select returns None when no row matches
both the id and the owner. -/
theorem get_proposal_by_id_none
    (store : List Proposal) (proposal_id uid : Nat)
    (h : ∀ p ∈ store, ¬ (p.id = proposal_id ∧ p.owner_id = uid)) :
    get_proposal_by_id store proposal_id (some uid) = none := by
  apply List.find?_eq_none.mpr
  intro p hp
  have := h p hp
  simp only [Bool.and_eq_true, beq_iff_eq]
  intro hcontra
  exact this ⟨hcontra.1, hcontra.2⟩

/- ====================================================================
   C7: structured word count sums the per-section counts
==================================================================== -/

/-- C7: for every structured-content dictionary the computed word
count is the sum over the string-valued sections of the length of the
tag-stripped, whitespace-collapsed, trimmed text, non-text sections
contributing 0 (absent sections are simply not in the dictionary); in
particular the abstract/background example counts 11. -/
theorem c7_structured_word_count :
    (∀ d : List (String × SectionVal),
       calculate_structured_word_count d = (d.map sectionWordCount).sum)
    ∧ calculate_structured_word_count
        [("abstract", .str "<p>Hello  world</p>"), ("background", .str "")] = 11 := by
  constructor
  · intro d
    unfold calculate_structured_word_count
    rw [structured_word_count_foldl d 0]
    omega
  · decide

/- ====================================================================
   C1: the active-account gate is absent from the proposal endpoints
==================================================================== -/

/-- C1 failing-input evaluation: the proposals router depends on
get_current_user, not get_current_active_user, so a valid token of an
account whose active flag is false passes the gate and every proposal
operation proceeds.  The first three conjuncts show the account is
inactive and that the separate get_current_active_user dependency (the
one the spec and the dependency-module documentation prescribe) would
have rejected it with the 400 AccountInactive error; the remaining
conjuncts evaluate the endpoints at that token: the read returns the
row and the delete removes it, while create, update and duplicate
proceed past the gate and fail only on the missing-column crash (the
generic 500) — never with the AccountInactive 400. -/
theorem c1_inactive_account_not_blocked :
    demoInactiveUser.is_active = false
    ∧ get_current_active_user [demoInactiveUser] demoTokenInactive 10 = .error .inactiveUser
    ∧ ApiError.inactiveUser.statusCode = 400
    ∧ api_get_proposal [demoInactiveUser] [baseProposal] demoTokenInactive 10 7
        = .ok baseProposal
    ∧ api_delete_proposal [demoInactiveUser] [baseProposal] demoTokenInactive 10 7
        = (.ok (), [])
    ∧ (api_create_proposal [demoInactiveUser] [baseProposal] demoTokenInactive 10
         { title := "New", research_field := "AI" }).1 = .error .internal
    ∧ (api_update_proposal [demoInactiveUser] [baseProposal] demoTokenInactive 10 7
         patchTitleOnly).1 = .error .internal
    ∧ (api_duplicate_proposal [demoInactiveUser] [baseProposal] demoTokenInactive 10 7
         none).1 = .error .internal
    ∧ ApiError.internal ≠ ApiError.inactiveUser :=
  ⟨rfl, rfl, rfl, rfl, rfl, rfl, rfl, rfl, by decide⟩

/- ====================================================================
   C2: stale version never yields the documented conflict
==================================================================== -/

/-- C2 (code bug): on a found row, an update patch that submits a
version makes the optimistic-lock comparison read the missing version
attribute of the row and raise AttributeError, so the documented
version-conflict ValueError carrying the current and the submitted
number — the behaviour the claim and the docstring of update_proposal
describe — is never produced.  The store is returned unchanged, so no
field is modified, but the caller sees the generic 500, not the 409
conflict with both numbers. -/
theorem c2_stale_version_crashes_without_conflict
    (store : List Proposal) (proposal_id user_id now v : Nat)
    (d : ProposalUpdateRequest) (p : Proposal)
    (hfound : get_proposal_by_id store proposal_id (some user_id) = some p)
    (hver : d.version = .set v) :
    update_proposal store proposal_id d user_id now = (.attributeError, store)
    ∧ ∀ current submitted,
        (update_proposal store proposal_id d user_id now).1
          ≠ .versionConflict current submitted := by
  have h : update_proposal store proposal_id d user_id now = (.attributeError, store) := by
    simp [update_proposal, hfound, hver]
  refine ⟨h, ?_⟩
  intro current submitted
  simp [h]

/-- Witness for C2: the stored proposal exists, the patch submits
version 2, the CRUD layer raises instead of reporting a conflict, and
the endpoint converts the crash into the generic 500. -/
theorem c2_stale_version_crashes_without_conflict_witness :
    get_proposal_by_id [baseProposal] 7 (some 1) = some baseProposal
    ∧ patchConflict.version = .set 2
    ∧ update_proposal [baseProposal] 7 patchConflict 1 100 = (.attributeError, [baseProposal])
    ∧ api_update_proposal [demoAlice] [baseProposal] demoTokenAlice 10 7 patchConflict
        = (.error .internal, [baseProposal])
    ∧ ApiError.internal.statusCode = 500 := by
  refine ⟨by decide, by decide, ?_, by rfl, rfl⟩
  exact (c2_stale_version_crashes_without_conflict [baseProposal] 7 1 100 2 patchConflict
    baseProposal (by decide) (by decide)).1

/- ====================================================================
   C3: updates never commit
==================================================================== -/

/-- C3 (code bug): whatever the patch, an update on a found row never
succeeds: the unconditional version bump (or, with a submitted
version, the optimistic-lock comparison before it) reads the missing
version attribute and raises AttributeError before db.commit, so the
store is returned unchanged — no field is written, the version is
never incremented and last_auto_save_at is never stamped. -/
theorem c3_update_never_commits
    (store : List Proposal) (proposal_id user_id now : Nat)
    (d : ProposalUpdateRequest) (p : Proposal)
    (hfound : get_proposal_by_id store proposal_id (some user_id) = some p) :
    update_proposal store proposal_id d user_id now = (.attributeError, store) := by
  cases hv : d.version <;> simp [update_proposal, hfound, hv]

/-- Witness for C3: a title-only patch (version omitted) on the
stored proposal crashes at the version bump; the endpoint returns the
generic 500 and the store is unchanged. -/
theorem c3_update_never_commits_witness :
    get_proposal_by_id [baseProposal] 7 (some 1) = some baseProposal
    ∧ patchTitleOnly.version = .unset
    ∧ update_proposal [baseProposal] 7 patchTitleOnly 1 100 = (.attributeError, [baseProposal])
    ∧ api_update_proposal [demoAlice] [baseProposal] demoTokenAlice 10 7 patchTitleOnly
        = (.error .internal, [baseProposal])
    ∧ ApiError.internal.statusCode = 500 := by
  refine ⟨by decide, by decide, ?_, by rfl, rfl⟩
  exact c3_update_never_commits [baseProposal] 7 1 100 patchTitleOnly baseProposal (by decide)

/- ====================================================================
   C4: wrong owner is indistinguishable from a missing row
==================================================================== -/

/-- Counterexample to C4 as stated: the claim fixes the common outcome
of all four operations as the not-found HTTP 404, but the update and
duplicate endpoints raise their 404 HTTPException inside the try block
and catch it with `except Exception`, returning the generic 500
instead: Alice addressing proposal 9, which is owned by user 2, gets
internal (500) from both, not notFound (404). -/
theorem c4_counterexample_update_duplicate_500 :
    (api_update_proposal [demoAlice] [richProposal] demoTokenAlice 10 9 patchTitleOnly).1
        = .error .internal
    ∧ (api_duplicate_proposal [demoAlice] [richProposal] demoTokenAlice 10 9 none).1
        = .error .internal
    ∧ ApiError.internal ≠ ApiError.notFound
    ∧ ApiError.internal.statusCode = 500 :=
  ⟨rfl, rfl, by decide, rfl⟩

/-- C4 amended: for a caller authenticated as user A, each of the four
row-addressing operations produces exactly the same observable outcome
on the id of a proposal owned by a different user as on an id under
which no proposal exists — get and delete the 404 not-found result,
update and duplicate the generic 500 (their 404 is raised inside the
try block and swallowed by the generic exception handler) — with the
store untouched, so the responses reveal no difference between the two
cases. -/
theorem c4_wrong_owner_indistinguishable
    (users : List User) (store : List Proposal) (token : JoseToken)
    (now pidB pidN b : Nat) (pB : Proposal) (uA : User)
    (hauth : get_current_user users token now = .ok uA)
    (hmem : pB ∈ store) (hpid : pB.id = pidB)
    (hown : pB.owner_id = b) (hba : b ≠ uA.id)
    (hnodup : (store.map Proposal.id).Nodup)
    (hfresh : ∀ p ∈ store, p.id ≠ pidN)
    (d : ProposalUpdateRequest) (nt : Option String) :
    api_get_proposal users store token now pidB
        = api_get_proposal users store token now pidN
    ∧ api_get_proposal users store token now pidB = .error .notFound
    ∧ api_update_proposal users store token now pidB d
        = api_update_proposal users store token now pidN d
    ∧ api_update_proposal users store token now pidB d = (.error .internal, store)
    ∧ api_delete_proposal users store token now pidB
        = api_delete_proposal users store token now pidN
    ∧ api_delete_proposal users store token now pidB = (.error .notFound, store)
    ∧ api_duplicate_proposal users store token now pidB nt
        = api_duplicate_proposal users store token now pidN nt
    ∧ api_duplicate_proposal users store token now pidB nt = (.error .internal, store)
    ∧ ApiError.notFound.statusCode = 404
    ∧ ApiError.internal.statusCode = 500 := by
  have hB : get_proposal_by_id store pidB (some uA.id) = none := by
    apply get_proposal_by_id_none
    intro p hp hcontra
    have hpp : p = pB := by
      apply List.inj_on_of_nodup_map hnodup hp hmem
      rw [hcontra.1, hpid]
    apply hba
    rw [← hown, ← hcontra.2, hpp]
  have hN : get_proposal_by_id store pidN (some uA.id) = none := by
    apply get_proposal_by_id_none
    intro p hp hcontra
    exact hfresh p hp hcontra.1
  refine ⟨?_, ?_, ?_, ?_, ?_, ?_, ?_, ?_, rfl, rfl⟩ <;>
    simp [api_get_proposal, api_update_proposal, api_delete_proposal, api_duplicate_proposal,
          update_proposal, delete_proposal, duplicate_proposal, hauth, hB, hN]

/-- Witness for C4: Alice (id 1) addressing proposal 9 owned by user 2
and the unused id 12. -/
theorem c4_wrong_owner_indistinguishable_witness :
    api_get_proposal [demoAlice] [richProposal] demoTokenAlice 10 9
        = api_get_proposal [demoAlice] [richProposal] demoTokenAlice 10 12
    ∧ api_get_proposal [demoAlice] [richProposal] demoTokenAlice 10 9 = .error .notFound
    ∧ api_update_proposal [demoAlice] [richProposal] demoTokenAlice 10 9 patchTitleOnly
        = api_update_proposal [demoAlice] [richProposal] demoTokenAlice 10 12 patchTitleOnly
    ∧ api_update_proposal [demoAlice] [richProposal] demoTokenAlice 10 9 patchTitleOnly
        = (.error .internal, [richProposal])
    ∧ api_delete_proposal [demoAlice] [richProposal] demoTokenAlice 10 9
        = (.error .notFound, [richProposal])
    ∧ api_duplicate_proposal [demoAlice] [richProposal] demoTokenAlice 10 9 none
        = (.error .internal, [richProposal]) := by
  have h :=
    c4_wrong_owner_indistinguishable [demoAlice] [richProposal] demoTokenAlice 10 9 12 2
      richProposal demoAlice (by rfl) (by decide) (by decide) (by decide) (by decide)
      (by decide) (by decide) patchTitleOnly none
  exact ⟨h.1, h.2.1, h.2.2.1, h.2.2.2.1, h.2.2.2.2.2.1, h.2.2.2.2.2.2.2.1⟩

/- ====================================================================
   C5: token verification round trip and total failure handling
==================================================================== -/

/-- C5: verifying a token issued for subject S returns S at any
instant up to the expiry (issue time plus the requested or default
ttl); verification never raises and yields the explicit none outcome
on a malformed token, on any token whose signature was not produced
with the configured key over its own payload (which covers any
alteration of the payload or signature), and on an expired token. -/
theorem c5_token_round_trip_and_invalid :
    (∀ (S : String) (delta : Option Nat) (nowIssue nowVerify : Nat),
       nowVerify ≤ nowIssue + delta.getD JWT_ACCESS_TOKEN_EXPIRE →
       verify_token (create_access_token { sub := some S } delta nowIssue) nowVerify = some S)
    ∧ (∀ (raw : String) (now : Nat), verify_token (.malformed raw) now = none)
    ∧ (∀ (j : SignedJwt) (now : Nat),
         j.sig ≠ { key := JWT_SECRET_KEY, signedPayload := j.payload } →
         verify_token (.signed j) now = none)
    ∧ (∀ (j : SignedJwt) (now : Nat),
         j.payload.exp < now → verify_token (.signed j) now = none) := by
  refine ⟨?_, ?_, ?_, ?_⟩
  · intro S delta nowIssue nowVerify hle
    cases delta with
    | none =>
        simp only [Option.getD] at hle
        have hnx : ¬ (nowIssue + JWT_ACCESS_TOKEN_EXPIRE < nowVerify) := by omega
        simp [create_access_token, joseEncode, verify_token, joseDecode, hnx]
    | some dt =>
        simp only [Option.getD] at hle
        have hnx : ¬ (nowIssue + dt < nowVerify) := by omega
        simp [create_access_token, joseEncode, verify_token, joseDecode, hnx]
  · intro raw now
    simp [verify_token, joseDecode]
  · intro j now hne
    simp [verify_token, joseDecode, hne]
  · intro j now hexp
    by_cases hs : j.sig = { key := JWT_SECRET_KEY, signedPayload := j.payload } <;>
      simp [verify_token, joseDecode, hs, hexp]

/-- Witness for C5: round trip at the default expiry boundary, a
malformed token, a wrong-key signature, and an expired token. -/
theorem c5_token_round_trip_and_invalid_witness :
    verify_token (create_access_token { sub := some "user@example.com" } none 0) 86400
        = some "user@example.com"
    ∧ verify_token (.malformed "not.a.jwt") 0 = none
    ∧ badSigJwt.sig ≠ { key := JWT_SECRET_KEY, signedPayload := badSigJwt.payload }
    ∧ verify_token (.signed badSigJwt) 0 = none
    ∧ expiredJwt.payload.exp < 6
    ∧ verify_token (.signed expiredJwt) 6 = none := by
  refine ⟨?_, ?_, by decide, ?_, by decide, ?_⟩
  · exact c5_token_round_trip_and_invalid.1 "user@example.com" none 0 86400 (by decide)
  · exact c5_token_round_trip_and_invalid.2.1 "not.a.jwt" 0
  · exact c5_token_round_trip_and_invalid.2.2.1 badSigJwt 0 (by decide)
  · exact c5_token_round_trip_and_invalid.2.2.2 expiredJwt 6 (by decide)

/- ====================================================================
   C6: password hashing with length normalization
==================================================================== -/

/-- The alphabet decode inverts the alphabet encode on indices. -/
theorem b64charInv_b64char : ∀ i, i < 64 → b64charInv (b64char i) = i := by decide

/-- Alphabet bytes are never the pad byte. -/
theorem b64char_ne_61 : ∀ i, i < 64 → b64char i ≠ 61 := by decide

/-- Decoding inverts encoding on byte sequences. -/
theorem b64decode_encode :
    ∀ (bs : List Nat), (∀ b ∈ bs, b < 256) → b64decode (b64encode bs) = bs
  | [], _ => rfl
  | [b1], h => by
      have hb1 : b1 < 256 := h b1 (by simp)
      have h1 : b1 / 4 < 64 := by omega
      have h2 : (b1 % 4) * 16 < 64 := by omega
      simp [b64encode, b64decode, b64charInv_b64char _ h1, b64charInv_b64char _ h2]
      omega
  | [b1, b2], h => by
      have hb1 : b1 < 256 := h b1 (by simp)
      have hb2 : b2 < 256 := h b2 (by simp)
      have h1 : b1 / 4 < 64 := by omega
      have h2 : (b1 % 4) * 16 + b2 / 16 < 64 := by omega
      have h3 : (b2 % 16) * 4 < 64 := by omega
      simp [b64encode, b64decode, b64char_ne_61 _ h3,
            b64charInv_b64char _ h1, b64charInv_b64char _ h2, b64charInv_b64char _ h3]
      constructor <;> omega
  | b1 :: b2 :: b3 :: rest, h => by
      have hb1 : b1 < 256 := h b1 (by simp)
      have hb2 : b2 < 256 := h b2 (by simp)
      have hb3 : b3 < 256 := h b3 (by simp)
      have h1 : b1 / 4 < 64 := by omega
      have h2 : (b1 % 4) * 16 + b2 / 16 < 64 := by omega
      have h3 : (b2 % 16) * 4 + b3 / 64 < 64 := by omega
      have h4 : b3 % 64 < 64 := by omega
      have hrest : b64decode (b64encode rest) = rest :=
        b64decode_encode rest (fun b hb => h b (by simp [hb]))
      simp [b64encode, b64decode, b64char_ne_61 _ h3, b64char_ne_61 _ h4,
            b64charInv_b64char _ h1, b64charInv_b64char _ h2, b64charInv_b64char _ h3,
            b64charInv_b64char _ h4, hrest]
      refine ⟨by omega, by omega, by omega⟩

/-- Length of the base64 encoding. -/
theorem b64encode_length :
    ∀ bs : List Nat, (b64encode bs).length = 4 * ((bs.length + 2) / 3)
  | [] => rfl
  | [_] => by simp [b64encode]
  | [_, _] => by simp [b64encode]
  | _ :: _ :: _ :: rest => by
      simp [b64encode, b64encode_length rest]
      omega

/-- Length of the big-endian byte expansion. -/
theorem toBytesBE_length : ∀ (k val : Nat), (toBytesBE k val).length = k
  | 0, _ => rfl
  | k + 1, val => by simp [toBytesBE, toBytesBE_length k]

/-- Bytes of the big-endian expansion are bytes. -/
theorem toBytesBE_lt : ∀ (k val : Nat), ∀ b ∈ toBytesBE k val, b < 256
  | 0, _ => by simp [toBytesBE]
  | k + 1, val => by
      intro b hb
      simp [toBytesBE] at hb
      rcases hb with hb | hb
      · exact toBytesBE_lt k (val / 256) b hb
      · omega

/-- The digest always has 32 bytes. -/
theorem sha256_length (msg : List Nat) : (sha256 msg).length = 32 := by
  simp [sha256, toBytesBE_length]

/-- Digest entries are bytes. -/
theorem sha256_lt (msg : List Nat) : ∀ b ∈ sha256 msg, b < 256 := by
  intro b hb
  simp [sha256] at hb
  rcases hb with hb | hb | hb | hb | hb | hb | hb | hb <;> exact toBytesBE_lt 4 _ b hb

/-- Counterexample to C6 as stated: the claim demands that every
password other than P fail to verify against hash(P), but a 44-byte
password whose bytes spell the base64 re-encoding of the digest of a
long password P verifies against hash(P), because the stored
commitment is exactly that re-encoding. -/
theorem c6_counterexample_digest_collision :
    collidingPw ≠ longPw
    ∧ verify_password collidingPw (get_password_hash longPw { nonce := 0 }) = true := by
  have hlen : collidingPw.length = 44 := by
    unfold collidingPw
    rw [b64encode_length, sha256_length]
  constructor
  · intro hc
    have hcl := congrArg List.length hc
    rw [hlen] at hcl
    simp [longPw] at hcl
  · have h1 : ¬ (collidingPw.length > 72) := by omega
    have h2 : longPw.length > 72 := by simp [longPw]
    have h3 : collidingPw.take 72 = collidingPw :=
      List.take_of_length_le (by omega)
    simp [verify_password, get_password_hash, bcrypt_hashpw, bcrypt_checkpw, h1, h2]
    rw [show b64encode (sha256 longPw) = collidingPw from rfl, h3]

/-- C6 amended: verify(P, hash(P)) is true for every password,
including those beyond 72 bytes.  verify(P', hash(P)) is false
whenever P and P' differ and both fit in 72 bytes; whenever both
exceed 72 bytes and — the digest being collision-free on the pair —
their digests differ, including pairs differing only after byte 72;
and across the 72-byte boundary whenever the short password's bytes
differ from the base64 re-encoding of the long password's digest,
whichever of the two was hashed.  The exceptions are exactly the
cross-boundary pairs in which the short password spells that
re-encoding: verification then succeeds in both directions — the
short password against the long one's hash and the long password
against the short one's hash — as the last two conjuncts state. -/
theorem c6_password_normalization :
    (∀ (pw : List Nat) (salt : BcryptSalt),
       verify_password pw (get_password_hash pw salt) = true)
    ∧ (∀ (pw pw' : List Nat) (salt : BcryptSalt),
         pw.length ≤ 72 → pw'.length ≤ 72 → pw ≠ pw' →
         verify_password pw' (get_password_hash pw salt) = false)
    ∧ (∀ (pw pw' : List Nat) (salt : BcryptSalt),
         72 < pw.length → 72 < pw'.length → sha256 pw ≠ sha256 pw' →
         verify_password pw' (get_password_hash pw salt) = false)
    ∧ (∀ (pw pw' : List Nat) (salt : BcryptSalt),
         pw.length ≤ 72 → 72 < pw'.length → pw ≠ b64encode (sha256 pw') →
         verify_password pw (get_password_hash pw' salt) = false)
    ∧ (∀ (pw pw' : List Nat) (salt : BcryptSalt),
         pw.length ≤ 72 → 72 < pw'.length → b64encode (sha256 pw') ≠ pw →
         verify_password pw' (get_password_hash pw salt) = false)
    ∧ (∀ (pw' : List Nat) (salt : BcryptSalt), 72 < pw'.length →
         verify_password (b64encode (sha256 pw')) (get_password_hash pw' salt) = true)
    ∧ (∀ (pw' : List Nat) (salt : BcryptSalt), 72 < pw'.length →
         verify_password pw' (get_password_hash (b64encode (sha256 pw')) salt) = true) := by
  have hb64len : ∀ m : List Nat, (b64encode (sha256 m)).length ≤ 72 := by
    intro m
    rw [b64encode_length, sha256_length]
    omega
  refine ⟨?_, ?_, ?_, ?_, ?_, ?_, ?_⟩
  · intro pw salt
    by_cases hl : pw.length > 72 <;>
      simp [verify_password, get_password_hash, bcrypt_hashpw, bcrypt_checkpw, hl]
  · intro pw pw' salt hlp hlp' hne
    have h1 : ¬ (pw.length > 72) := by omega
    have h2 : ¬ (pw'.length > 72) := by omega
    simp [verify_password, get_password_hash, bcrypt_hashpw, bcrypt_checkpw, h1, h2,
          List.take_of_length_le hlp, List.take_of_length_le hlp']
    exact fun hcontra => hne hcontra.symm
  · intro pw pw' salt hlp hlp' hdig
    simp [verify_password, get_password_hash, bcrypt_hashpw, bcrypt_checkpw, hlp, hlp',
          List.take_of_length_le (hb64len pw), List.take_of_length_le (hb64len pw')]
    intro hcontra
    apply hdig
    have hx := b64decode_encode (sha256 pw') (sha256_lt pw')
    have hy := b64decode_encode (sha256 pw) (sha256_lt pw)
    rw [← hx, ← hy, hcontra]
  · intro pw pw' salt hlp hlp' hne
    have h1 : ¬ (pw.length > 72) := by omega
    simp [verify_password, get_password_hash, bcrypt_hashpw, bcrypt_checkpw, h1, hlp',
          List.take_of_length_le hlp, List.take_of_length_le (hb64len pw')]
    exact hne
  · intro pw pw' salt hlp hlp' hne
    have h1 : ¬ (pw.length > 72) := by omega
    simp [verify_password, get_password_hash, bcrypt_hashpw, bcrypt_checkpw, h1, hlp',
          List.take_of_length_le hlp, List.take_of_length_le (hb64len pw')]
    exact hne
  · intro pw' salt hlp'
    have h1 : ¬ ((b64encode (sha256 pw')).length > 72) := by
      have := hb64len pw'
      omega
    simp [verify_password, get_password_hash, bcrypt_hashpw, bcrypt_checkpw, h1, hlp']
  · intro pw' salt hlp'
    have h1 : ¬ ((b64encode (sha256 pw')).length > 72) := by
      have := hb64len pw'
      omega
    simp [verify_password, get_password_hash, bcrypt_hashpw, bcrypt_checkpw, h1, hlp']

set_option maxRecDepth 100000 in
/-- Witness for C6: the round trip on a short password; rejection of a
wrong short password; rejection across two long passwords with
different digests; rejection across the length boundary in both
directions for a non-colliding pair; and the two exception directions
both verifying for the colliding pair. -/
theorem c6_password_normalization_witness :
    verify_password [1, 2, 3] (get_password_hash [1, 2, 3] { nonce := 0 }) = true
    ∧ verify_password [2] (get_password_hash [1] { nonce := 0 }) = false
    ∧ sha256 (List.replicate 73 97) ≠ sha256 (List.replicate 73 98)
    ∧ verify_password (List.replicate 73 98)
        (get_password_hash (List.replicate 73 97) { nonce := 0 }) = false
    ∧ verify_password [1, 2] (get_password_hash longPw { nonce := 0 }) = false
    ∧ verify_password longPw (get_password_hash [1, 2] { nonce := 0 }) = false
    ∧ verify_password collidingPw (get_password_hash longPw { nonce := 0 }) = true
    ∧ verify_password longPw (get_password_hash collidingPw { nonce := 0 }) = true := by
  have hsha : sha256 (List.replicate 73 97) ≠ sha256 (List.replicate 73 98) := by decide
  have hlen44 : (b64encode (sha256 longPw)).length = 44 := by
    rw [b64encode_length, sha256_length]
  have hne12 : ([1, 2] : List Nat) ≠ b64encode (sha256 longPw) := by
    intro hc
    have hcl := congrArg List.length hc
    rw [hlen44] at hcl
    simp at hcl
  have hlong : 72 < longPw.length := by simp [longPw]
  refine ⟨?_, ?_, hsha, ?_, ?_, ?_, ?_, ?_⟩
  · exact c6_password_normalization.1 [1, 2, 3] { nonce := 0 }
  · exact c6_password_normalization.2.1 [1] [2] { nonce := 0 }
      (by decide) (by decide) (by decide)
  · exact c6_password_normalization.2.2.1 (List.replicate 73 97) (List.replicate 73 98)
      { nonce := 0 } (by decide) (by decide) hsha
  · exact c6_password_normalization.2.2.2.1 [1, 2] longPw { nonce := 0 }
      (by decide) hlong hne12
  · exact c6_password_normalization.2.2.2.2.1 [1, 2] longPw { nonce := 0 }
      (by decide) hlong (fun hc => hne12 hc.symm)
  · exact c6_password_normalization.2.2.2.2.2.1 longPw { nonce := 0 } hlong
  · exact c6_password_normalization.2.2.2.2.2.2 longPw { nonce := 0 } hlong

/- ====================================================================
   C8: no update ever stores or returns a word count
==================================================================== -/

/-- C8 (code bug): the endpoint genuinely computes the structured word
count (11 for this content) and writes it into the request object, but
no update can ever store or return it: word_count is not a column of
the model, the hasattr guard drops the field, and the update raises
AttributeError at the version bump, so the PUT returns the generic 500
with the store unchanged — with or without an explicit word count in
the patch. -/
theorem c8_word_count_never_stored :
    calculate_structured_word_count (proposalContentDict scHello) = 11
    ∧ (applyWordCountDefault patchStructured).word_count = .set 11
    ∧ api_update_proposal [demoAlice] [baseProposal] demoTokenAlice 10 7 patchStructured
        = (.error .internal, [baseProposal])
    ∧ api_update_proposal [demoAlice] [baseProposal] demoTokenAlice 10 7 patchStructuredExplicit
        = (.error .internal, [baseProposal])
    ∧ ApiError.internal.statusCode = 500 :=
  ⟨by decide, by decide, by rfl, by rfl, rfl⟩

/- ====================================================================
   C9: duplicate never inserts a copy
==================================================================== -/

/-- C9 (code bug): on a found source row the duplicate inserts
nothing: building the copy evaluates original.structured_content, an
attribute the model does not declare, and raises AttributeError with
the store unchanged, so no new record — let alone one with status
draft and version 1 — ever appears; the endpoint converts the crash
into the generic 500. -/
theorem c9_duplicate_never_inserts
    (store : List Proposal) (proposal_id user_id : Nat)
    (new_title : Option String) (p : Proposal)
    (hfound : get_proposal_by_id store proposal_id (some user_id) = some p) :
    duplicate_proposal store proposal_id user_id new_title = (.attributeError, store) := by
  simp [duplicate_proposal, hfound]

/-- Witness for C9: user 2 duplicating their submitted proposal 9 with
a supplied title; the CRUD layer raises and the endpoint returns the
generic 500 with nothing inserted. -/
theorem c9_duplicate_never_inserts_witness :
    get_proposal_by_id [richProposal] 9 (some 2) = some richProposal
    ∧ duplicate_proposal [richProposal] 9 2 (some "Copy A") = (.attributeError, [richProposal])
    ∧ api_duplicate_proposal [demoBob] [richProposal] demoTokenBob 10 9 (some "Copy A")
        = (.error .internal, [richProposal])
    ∧ ApiError.internal.statusCode = 500 := by
  refine ⟨by decide, ?_, by rfl, rfl⟩
  exact c9_duplicate_never_inserts [richProposal] 9 2 (some "Copy A") richProposal (by decide)

/- ====================================================================
   C10: duplicate produces no record at all
==================================================================== -/

/-- C10 (code bug): no record is ever produced by duplicate — on every
input the store comes back unchanged and the outcome is either the
missing row or the AttributeError raised before db.add — so there
exists no copy whose analysis fields could start from the column
defaults.  The constructor expression as written does omit the score,
AI, files and submission keyword arguments, matching the claimed
reset, but it is never evaluated to completion. -/
theorem c10_duplicate_inserts_nothing
    (store : List Proposal) (proposal_id user_id : Nat) (new_title : Option String) :
    (duplicate_proposal store proposal_id user_id new_title).2 = store
    ∧ ((duplicate_proposal store proposal_id user_id new_title).1 = DupOutcome.notFound
       ∨ (duplicate_proposal store proposal_id user_id new_title).1
           = DupOutcome.attributeError) := by
  unfold duplicate_proposal
  cases get_proposal_by_id store proposal_id (some user_id) <;> simp
